import Mathlib

/-!
Verification development for a two-outcome prediction-market trading agent.

The definitions below are shallow embeddings of the Python source:
prices and sizes (Python floats) are modelled as exact rationals `ℚ`,
Python `None` as `Option`, and Python dictionaries keyed by price as
insertion-ordered association lists (unique keys, first-occurrence order),
which is exactly the observable behaviour of a `dict` built and mutated the
way the source does. Impure aspects (logging, network calls) are dropped;
the outcome of a venue order call is passed in explicitly as an
`Except String Unit` value.
-/

/-! ### Order-book primitives (polymarket/models.py) -/

/-- One order-book level, `OrderLevel` from `polymarket/models.py`. -/
structure OrderLevel where
  price : ℚ
  size : ℚ
deriving DecidableEq, Repr

/-- `max(level.price for level in levels)` guarded by emptiness, as in the
`best_bid` properties of `SideData` / `OrderBookContext`. -/
def bestBidPrice (levels : List OrderLevel) : Option ℚ :=
  match levels.map OrderLevel.price with
  | [] => none
  | p :: ps => some (ps.foldl max p)

/-- `min(level.price for level in levels)` guarded by emptiness, as in the
`best_ask` properties of `SideData` / `OrderBookContext`. -/
def bestAskPrice (levels : List OrderLevel) : Option ℚ :=
  match levels.map OrderLevel.price with
  | [] => none
  | p :: ps => some (ps.foldl min p)

/-- `OrderBookContext` from `polymarket/models.py` (token ids dropped:
no claim depends on them). -/
structure OrderBookContext where
  yes_bids : List OrderLevel := []
  yes_asks : List OrderLevel := []
  no_bids : List OrderLevel := []
  no_asks : List OrderLevel := []
deriving DecidableEq, Repr

def OrderBookContext.yes_best_bid (ob : OrderBookContext) : Option ℚ :=
  bestBidPrice ob.yes_bids

def OrderBookContext.yes_best_ask (ob : OrderBookContext) : Option ℚ :=
  bestAskPrice ob.yes_asks

def OrderBookContext.no_best_bid (ob : OrderBookContext) : Option ℚ :=
  bestBidPrice ob.no_bids

def OrderBookContext.no_best_ask (ob : OrderBookContext) : Option ℚ :=
  bestAskPrice ob.no_asks

/-! ### Trading signals (strategies/base.py) -/

inductive SignalType where
  | BUY
  | SELL
  | HOLD
deriving DecidableEq, Repr

/-- `TradingSignal` from `strategies/base.py` (metadata dropped: it is a
log-only dictionary no claim depends on). -/
structure TradingSignal where
  signal_type : SignalType
  yes_size : Option ℚ := none
  no_size : Option ℚ := none
  yes_price : Option ℚ := none
  no_price : Option ℚ := none
  reason : String := ""
deriving DecidableEq, Repr

/-! ### Merge-long strategy (strategies/merge_long_strategy.py)

`MergeLongStrategy.generate_signal`.  The two parameters are passed as
`Option ℚ`: `none` selects the `DEFAULT_PARAMS` value exactly as
`params.get(key, DEFAULT)` does.  The `float()` conversion and
`isinstance` guard cannot fail on a rational input, so they reduce to the
`total_budget <= 0` test kept below. -/

def mergeLongGenerateSignal (ob : OrderBookContext)
    (min_gap? : Option ℚ) (budget? : Option ℚ) : TradingSignal :=
  match ob.yes_best_ask, ob.no_best_ask, ob.yes_best_bid, ob.no_best_bid with
  | some yes_ask, some no_ask, some yes_bid, some no_bid =>
    let effective_buy_yes := min yes_ask (1 - no_bid)
    let effective_buy_no := min no_ask (1 - yes_bid)
    let long_cost := effective_buy_yes + effective_buy_no
    let min_arbitrage_gap := min_gap?.getD (1/100)
    let total_budget := budget?.getD 10
    if total_budget ≤ 0 then
      { signal_type := .HOLD, reason := "invalid total_budget" }
    else
      let threshold := 1 - min_arbitrage_gap
      let epsilon : ℚ := 1/1000000
      if threshold + epsilon < long_cost then
        { signal_type := .HOLD, reason := "cost above threshold" }
      else if long_cost ≤ 0 then
        { signal_type := .HOLD, reason := "invalid cost" }
      else
        let size := total_budget / long_cost
        if size ≤ 0 then
          { signal_type := .HOLD, reason := "invalid size" }
        else
          { signal_type := .BUY
            yes_size := some size
            no_size := some size
            yes_price := some effective_buy_yes
            no_price := some effective_buy_no
            reason := "arbitrage" }
  | _, _, _, _ => { signal_type := .HOLD, reason := "incomplete book" }

/-! ### Position tracking (polymarket/models.py, PositionContext) -/

/-- `PositionContext` from `polymarket/models.py`. -/
structure PositionContext where
  yes_size : ℚ := 0
  no_size : ℚ := 0
  yes_avg_cost : ℚ := 0
  no_avg_cost : ℚ := 0
  yes_total_cost : ℚ := 0
  no_total_cost : ℚ := 0
deriving DecidableEq, Repr

/-- Python `str.upper()`, character-wise; the side strings this program
upper-cases are plain ASCII, for which this is exact. -/
def strUpper (s : String) : String := ⟨s.data.map Char.toUpper⟩

/-- `PositionContext.update_position` from `polymarket/models.py`. -/
def PositionContext.update_position (pos : PositionContext) (side : String)
    (size price : ℚ) (is_buy : Bool) : PositionContext :=
  let s := strUpper side
  if s = "YES" then
    if is_buy then
      let new_cost := pos.yes_total_cost + size * price
      let new_size := pos.yes_size + size
      { pos with
        yes_total_cost := new_cost
        yes_size := new_size
        yes_avg_cost := if 0 < new_size then new_cost / new_size else 0 }
    else
      let ns := max 0 (pos.yes_size - size)
      if ns = 0 then
        { pos with yes_size := ns, yes_total_cost := 0, yes_avg_cost := 0 }
      else
        { pos with yes_size := ns }
  else if s = "NO" then
    if is_buy then
      let new_cost := pos.no_total_cost + size * price
      let new_size := pos.no_size + size
      { pos with
        no_total_cost := new_cost
        no_size := new_size
        no_avg_cost := if 0 < new_size then new_cost / new_size else 0 }
    else
      let ns := max 0 (pos.no_size - size)
      if ns = 0 then
        { pos with no_size := ns, no_total_cost := 0, no_avg_cost := 0 }
      else
        { pos with no_size := ns }
  else pos

/-- `PositionContext.has_position`. -/
def PositionContext.has_position (pos : PositionContext) : Prop :=
  0 < pos.yes_size ∨ 0 < pos.no_size

instance (pos : PositionContext) : Decidable pos.has_position :=
  inferInstanceAs (Decidable (_ ∨ _))

/-! ### Locked-profit strategy (strategies/locked_profit_strategy.py) -/

inductive Side where
  | YES
  | NO
deriving DecidableEq, Repr

/-- `Portfolio` from `locked_profit_strategy.py`. -/
structure Portfolio where
  q_yes : ℚ := 0
  q_no : ℚ := 0
  net_cost : ℚ := 0
deriving DecidableEq, Repr

/-- `Portfolio.profit`. -/
def Portfolio.profit (port : Portfolio) (winner : Side) (settle : ℚ := 1) : ℚ :=
  (match winner with | .YES => port.q_yes | .NO => port.q_no) * settle - port.net_cost

/-- `Portfolio.from_position_context`. -/
def Portfolio.from_position_context (position : PositionContext) : Portfolio :=
  { q_yes := position.yes_size
    q_no := position.no_size
    net_cost := position.yes_total_cost + position.no_total_cost }

/-- `min_buy_qty_for_target_profit` from `locked_profit_strategy.py`;
`none` models the Python `None` (infeasible) result.  The `1e-12`
feasibility slack of the source is kept verbatim. -/
def min_buy_qty_for_target_profit (port : Portfolio) (side_to_buy : Side)
    (raw_ask : ℚ) (target_profit : ℚ := 0) (settle : ℚ := 1) : Option ℚ :=
  let p := raw_ask
  let profit_yes := port.profit .YES settle
  let profit_no := port.profit .NO settle
  if settle ≤ p then none
  else
    let lower_upper : ℚ × ℚ :=
      match side_to_buy with
      | .YES => ((target_profit - profit_yes) / (settle - p),
                 (profit_no - target_profit) / p)
      | .NO => ((target_profit - profit_no) / (settle - p),
                (profit_yes - target_profit) / p)
    let x_min := max 0 lower_upper.1
    if lower_upper.2 < x_min - 1/1000000000000 then none else some x_min

/-- `LockedProfitStrategy.generate_signal`; the single parameter
`target_profit` is passed as `Option ℚ` (`none` selects the default `0`). -/
def lockedProfitGenerateSignal (ob : OrderBookContext) (position : PositionContext)
    (target? : Option ℚ) : TradingSignal :=
  if ¬position.has_position then
    { signal_type := .HOLD, reason := "no position" }
  else
    let port := Portfolio.from_position_context position
    let profit_yes_wins := port.profit .YES
    let profit_no_wins := port.profit .NO
    let target := target?.getD 0
    if target ≤ profit_yes_wins ∧ target ≤ profit_no_wins then
      { signal_type := .HOLD, reason := "target reached on both sides" }
    else
      let side_to_buy : Side := if profit_yes_wins < profit_no_wins then .YES else .NO
      let raw_ask? : Option ℚ :=
        match side_to_buy with
        | .YES => ob.yes_best_ask
        | .NO => ob.no_best_ask
      match raw_ask? with
      | none => { signal_type := .HOLD, reason := "no ask price" }
      | some raw_ask =>
        match min_buy_qty_for_target_profit port side_to_buy raw_ask target with
        | none => { signal_type := .HOLD, reason := "target unreachable" }
        | some min_qty =>
          if min_qty < 1/100 then
            { signal_type := .HOLD, reason := "hedge quantity too small" }
          else
            { signal_type := .BUY
              yes_size := match side_to_buy with | .YES => some min_qty | .NO => none
              no_size := match side_to_buy with | .YES => none | .NO => some min_qty
              yes_price := match side_to_buy with | .YES => some raw_ask | .NO => none
              no_price := match side_to_buy with | .YES => none | .NO => some raw_ask
              reason := "hedge buy" }

/-! ### Order-book reconciliation (api/services/game_stream.py, StrategyState)

Python builds `level_map`, an insertion-ordered dictionary mapping each
level's price to its size, then pops or assigns one key and rebuilds the
list.  `dictUpsert`/`dictPop` below are exactly a Python dict's observable
behaviour on association lists with unique keys: assignment keeps the
position of an existing key and appends a fresh one, `pop` removes the
key. -/

/-- One `(price, size)` entry of the Python `level_map` dictionary. -/
abbrev LevelEntry := ℚ × ℚ

/-- Python `d[k] = v` on an insertion-ordered dictionary. -/
def dictUpsert (m : List LevelEntry) (k v : ℚ) : List LevelEntry :=
  if k ∈ m.map Prod.fst then
    m.map (fun kv => if kv.1 = k then (k, v) else kv)
  else
    m ++ [(k, v)]

/-- Python `d.pop(k, None)` on a dictionary (unique keys). -/
def dictPop (m : List LevelEntry) (k : ℚ) : List LevelEntry :=
  m.filter (fun kv => decide (kv.1 ≠ k))

/-- The dict comprehension building `level_map` from the ladder. -/
def buildLevelMap (levels : List OrderLevel) : List LevelEntry :=
  levels.foldl (fun m l => dictUpsert m l.price l.size) []

/-- `StrategyState._apply_price_change` from `api/services/game_stream.py`. -/
def applyPriceChange (levels : List OrderLevel) (price size : ℚ) : List OrderLevel :=
  let m := buildLevelMap levels
  let m := if size ≤ 0 then dictPop m price else dictUpsert m price size
  m.map (fun kv => ⟨kv.1, kv.2⟩)

/-- Bid ordering used by `self.yes_bids.sort(key=..., reverse=True)`. -/
def bidGE (a b : OrderLevel) : Prop := b.price ≤ a.price

/-- Ask ordering used by `self.yes_asks.sort(key=...)`. -/
def askLE (a b : OrderLevel) : Prop := a.price ≤ b.price

instance : DecidableRel bidGE := fun a b => inferInstanceAs (Decidable (b.price ≤ a.price))

instance : DecidableRel askLE := fun a b => inferInstanceAs (Decidable (a.price ≤ b.price))

instance : IsTotal OrderLevel bidGE := ⟨fun a b => le_total b.price a.price⟩

instance : IsTrans OrderLevel bidGE := ⟨fun _ _ _ h1 h2 => le_trans h2 h1⟩

instance : IsTotal OrderLevel askLE := ⟨fun a b => le_total a.price b.price⟩

instance : IsTrans OrderLevel askLE := ⟨fun _ _ _ h1 h2 => le_trans h1 h2⟩

/-- `list.sort(key=price, reverse=True)`: the sorted result is unique here
because ladders produced by `applyPriceChange` never repeat a price. -/
def sortBidsDesc (l : List OrderLevel) : List OrderLevel := l.insertionSort bidGE

/-- `list.sort(key=price)`. -/
def sortAsksAsc (l : List OrderLevel) : List OrderLevel := l.insertionSort askLE

/-- One entry of a `price_change` message's `price_changes` list, with the
fields `StrategyState.update_book` reads (`asset_id`, `side`, `price`,
`size`, already coerced to numbers as `float(... or 0)` does). -/
structure PriceChangeEntry where
  asset_id : String
  side : String
  price : ℚ
  size : ℚ
deriving DecidableEq, Repr

/-- A decoded book-stream message as consumed by
`StrategyState.update_book`: either a `price_change` delta or any other
message, which the code treats as a full-book replacement keyed by
`asset_id` (`bids`/`buys` and `asks`/`sells` already parsed into levels). -/
inductive BookMessage where
  | priceChange (changes : List PriceChangeEntry)
  | fullBook (asset_id : String) (bids : List OrderLevel) (asks : List OrderLevel)
deriving DecidableEq, Repr

/-- The order-book cache of `StrategyState` (strategy id, token ids for
matching, the four ladders and the two derived prices). -/
structure StrategyState where
  yes_token_id : String := ""
  no_token_id : String := ""
  yes_bids : List OrderLevel := []
  yes_asks : List OrderLevel := []
  no_bids : List OrderLevel := []
  no_asks : List OrderLevel := []
  yes_price : ℚ := 0
  no_price : ℚ := 0
deriving DecidableEq, Repr

/-- `StrategyState._mid_price`: `max(..., default=0.0)`, `min(..., default=0.0)`,
then Python truthiness on the two results. -/
def midPrice (bids asks : List OrderLevel) : ℚ :=
  let best_bid := (bestBidPrice bids).getD 0
  let best_ask := (bestAskPrice asks).getD 0
  if best_bid ≠ 0 ∧ best_ask ≠ 0 then (best_bid + best_ask) / 2
  else if best_bid ≠ 0 then best_bid else best_ask

/-- `StrategyState._refresh_prices`. -/
def refreshPrices (st : StrategyState) : StrategyState :=
  let yes_price := midPrice st.yes_bids st.yes_asks
  let no_price := midPrice st.no_bids st.no_asks
  let st := if 0 < yes_price then { st with yes_price := yes_price } else st
  if 0 < no_price then { st with no_price := no_price } else st

/-- The body of the `for change in price_changes` loop of
`StrategyState.update_book`. -/
def applyOneChange (st : StrategyState) (c : PriceChangeEntry) : StrategyState :=
  if c.asset_id = "" then st
  else if c.price ≤ 0 then st
  else if c.asset_id = st.yes_token_id then
    if strUpper c.side = "BUY" then
      { st with yes_bids := sortBidsDesc (applyPriceChange st.yes_bids c.price c.size) }
    else if strUpper c.side = "SELL" then
      { st with yes_asks := sortAsksAsc (applyPriceChange st.yes_asks c.price c.size) }
    else st
  else if c.asset_id = st.no_token_id then
    if strUpper c.side = "BUY" then
      { st with no_bids := sortBidsDesc (applyPriceChange st.no_bids c.price c.size) }
    else if strUpper c.side = "SELL" then
      { st with no_asks := sortAsksAsc (applyPriceChange st.no_asks c.price c.size) }
    else st
  else st

/-- `StrategyState.update_book`. -/
def updateBook (st : StrategyState) (msg : BookMessage) : StrategyState :=
  match msg with
  | .priceChange changes => refreshPrices (changes.foldl applyOneChange st)
  | .fullBook asset_id bids asks =>
    if asset_id = "" then st
    else if asset_id = st.yes_token_id then
      let st := if bids ≠ [] then { st with yes_bids := bids } else st
      let st := if asks ≠ [] then { st with yes_asks := asks } else st
      refreshPrices st
    else if asset_id = st.no_token_id then
      let st := if bids ≠ [] then { st with no_bids := bids } else st
      let st := if asks ≠ [] then { st with no_asks := asks } else st
      refreshPrices st
    else refreshPrices st

/-- A whole message sequence applied in order. -/
def applyMessages (st : StrategyState) (msgs : List BookMessage) : StrategyState :=
  msgs.foldl updateBook st

/-! ### Executor (polymarket/executor.py) -/

inductive ExecutionMode where
  | SIMULATION
  | REAL
deriving DecidableEq, Repr

/-- The `ExecutorConfig` fields `_execute_signal` reads, plus the executor's
token ids. -/
structure ExecutorConfig where
  execution_mode : ExecutionMode := .SIMULATION
  order_type : String := "GTC"
  min_order_amount : ℚ := 1
  yes_token_id : String := ""
  no_token_id : String := ""
deriving DecidableEq, Repr

inductive OrderStatus where
  | SIMULATED
  | SUBMITTED
  | FAILED
deriving DecidableEq, Repr

/-- One entry of `orders_placed` (the `order_info` dict plus status/error). -/
structure OrderRecord where
  token_id : String
  side : String
  size : ℚ
  price : ℚ
  order_type : String
  status : OrderStatus
  error : Option String := none
deriving DecidableEq, Repr

/-- `ExecutionResult` from `polymarket/executor.py`, with the executor's
position threaded through explicitly (the Python method mutates
`self._position` in place). -/
structure ExecResult where
  success : Bool
  orders_placed : List OrderRecord
  position : PositionContext
  error : Option String := none
deriving DecidableEq, Repr

/-- The `NO 方向订单` half of `StrategyExecutor._execute_signal`, entered with
the records and position produced by the YES half.  `noVenue` is the outcome
of the `create_polymarket_order` call for the NO leg (`.error` models the
call raising). -/
def executeNoLeg (cfg : ExecutorConfig) (sig : TradingSignal) (side : String)
    (acc : List OrderRecord) (pos : PositionContext)
    (noVenue : Except String Unit) : ExecResult :=
  let finish : List OrderRecord → PositionContext → ExecResult := fun orders p =>
    { success := orders.all (fun o => o.status ≠ OrderStatus.FAILED)
      orders_placed := orders
      position := p }
  match sig.no_size with
  | none => finish acc pos
  | some ns =>
    if ns ≠ 0 ∧ cfg.min_order_amount ≤ ns then
      match sig.no_price with
      | none =>
        { success := false, orders_placed := acc, position := pos
          error := some "NO order missing price" }
      | some np =>
        let info : OrderRecord :=
          { token_id := cfg.no_token_id, side := side, size := ns, price := np
            order_type := cfg.order_type, status := .SIMULATED }
        match cfg.execution_mode with
        | .SIMULATION =>
          finish (acc ++ [{ info with status := .SIMULATED }])
            (pos.update_position "NO" ns np (side = "BUY"))
        | .REAL =>
          match noVenue with
          | .ok _ =>
            finish (acc ++ [{ info with status := .SUBMITTED }])
              (pos.update_position "NO" ns np (side = "BUY"))
          | .error e =>
            finish (acc ++ [{ info with status := .FAILED, error := some e }]) pos
    else finish acc pos

/-- `StrategyExecutor._execute_signal`.  `yesVenue`/`noVenue` are the
outcomes of the venue order calls for the two legs. -/
def executeSignal (cfg : ExecutorConfig) (sig : TradingSignal) (pos : PositionContext)
    (yesVenue noVenue : Except String Unit) : ExecResult :=
  let side := if sig.signal_type = SignalType.BUY then "BUY" else "SELL"
  match sig.yes_size with
  | none => executeNoLeg cfg sig side [] pos noVenue
  | some ys =>
    if ys ≠ 0 ∧ cfg.min_order_amount ≤ ys then
      match sig.yes_price with
      | none =>
        { success := false, orders_placed := [], position := pos
          error := some "YES order missing price" }
      | some yp =>
        let info : OrderRecord :=
          { token_id := cfg.yes_token_id, side := side, size := ys, price := yp
            order_type := cfg.order_type, status := .SIMULATED }
        match cfg.execution_mode with
        | .SIMULATION =>
          executeNoLeg cfg sig side [{ info with status := .SIMULATED }]
            (pos.update_position "YES" ys yp (side = "BUY")) noVenue
        | .REAL =>
          match yesVenue with
          | .ok _ =>
            executeNoLeg cfg sig side [{ info with status := .SUBMITTED }]
              (pos.update_position "YES" ys yp (side = "BUY")) noVenue
          | .error e =>
            executeNoLeg cfg sig side [{ info with status := .FAILED, error := some e }]
              pos noVenue
    else executeNoLeg cfg sig side [] pos noVenue

/-! ### Worker control channel (worker/task_manager.py) -/

/-- The operation `TaskManager._handle_control_message` performs for one
decoded control message. -/
inductive ControlOp where
  | createTask (task_id : String)
  | cancelTask (task_id : String)
  | shutdown
  | unknown
deriving DecidableEq, Repr

/-- `TaskManager._handle_control_message`: the `action`/`task_id` fields of
the decoded JSON (`none` = absent; the empty string is falsy, as in Python). -/
def handleControlMessage (action : Option String) (task_id : Option String) : ControlOp :=
  let tid := task_id.getD ""
  if action = some "create" ∧ tid ≠ "" then .createTask tid
  else if action = some "cancel" ∧ tid ≠ "" then .cancelTask tid
  else if action = some "shutdown" then .shutdown
  else .unknown

/-! ### Transport reconnect backoff (polymarket/ws_client.py) -/

def RECONNECT_BASE_DELAY : ℕ := 1

def RECONNECT_MAX_DELAY : ℕ := 30

/-- The reconnect-attempt counter of `PolymarketWebSocketClient`. -/
structure WsConnState where
  reconnect_attempts : ℕ := 0
deriving DecidableEq, Repr

/-- One pass of the reconnect loop body in `_run_forever` after a transport
fault: the counter is incremented and the computed sleep is returned. -/
def onFailureStep (s : WsConnState) : WsConnState × ℕ :=
  let attempts := s.reconnect_attempts + 1
  (⟨attempts⟩, min RECONNECT_MAX_DELAY (RECONNECT_BASE_DELAY * 2 ^ (attempts - 1)))

/-- `_on_open` resets `_reconnect_attempts` to 0. -/
def onOpen (_s : WsConnState) : WsConnState := ⟨0⟩

/-- `k` consecutive faults with no intervening successful open. -/
def runFailures (s : WsConnState) : ℕ → WsConnState
  | 0 => s
  | n + 1 => (onFailureStep (runFailures s n)).1

/-- The delay slept before the `k`-th retry in a run of consecutive faults
starting from state `s`. -/
def kthRetryDelay (s : WsConnState) (k : ℕ) : ℕ :=
  (onFailureStep (runFailures s (k - 1))).2

/-! ### Book-stream message filter (polymarket/book_stream.py) -/

/-- A message delivered by the transport client to
`PolymarketBookStream._handle_message`: a dict with an optional
`event_type` field (any other dict entries are irrelevant to the filter),
or a non-dict value. -/
inductive StreamMessage where
  | obj (event_type : Option String)
  | nonObj
deriving DecidableEq, Repr

/-- Python `str.lower()`, character-wise (exact for the ASCII event types
this program compares against). -/
def strLower (s : String) : String := ⟨s.data.map Char.toLower⟩

/-- `PolymarketBookStream._handle_message`: `true` iff the message is put on
the queue. -/
def handleMessageEnqueues (m : StreamMessage) : Bool :=
  match m with
  | .obj et =>
    let s := strLower (et.getD "")
    if s ≠ "" ∧ s ≠ "book" ∧ s ≠ "price_change" then false else true
  | .nonObj => true

/-- The spec's notion of an understood message kind, written from the spec
sentence "the two understood kinds -- a full order-book replacement
('book') or an incremental price-change ('price_change')"; used to compare
the filter against the claim. -/
def specUnderstoodKind (m : StreamMessage) : Bool :=
  match m with
  | .obj (some et) => strLower et = "book" ∨ strLower et = "price_change"
  | _ => false
/-! ### Invariant definitions and concrete fixtures used by the theorems -/

/-- No ladder of the state repeats a price. -/
def LaddersNodup (st : StrategyState) : Prop :=
  (st.yes_bids.map OrderLevel.price).Nodup ∧
  (st.yes_asks.map OrderLevel.price).Nodup ∧
  (st.no_bids.map OrderLevel.price).Nodup ∧
  (st.no_asks.map OrderLevel.price).Nodup

/-- A full-book message whose own ladders are duplicate-free (delta
messages carry no ladders). -/
def fullBookNodup : BookMessage → Prop
  | .priceChange _ => True
  | .fullBook _ bids asks =>
    (bids.map OrderLevel.price).Nodup ∧ (asks.map OrderLevel.price).Nodup

/-- A `StrategyState` fresh out of `_init_strategy_state`: empty ladders,
known token ids. -/
def initStrategyState (yesTok noTok : String) : StrategyState :=
  { yes_token_id := yesTok, no_token_id := noTok }

/-- The spec's merge-arbitrage example book:
YES ask 0.52 / bid 0.50, NO ask 0.47 / bid 0.45. -/
def exampleBookC1 : OrderBookContext :=
  { yes_bids := [⟨1/2, 100⟩], yes_asks := [⟨13/25, 100⟩]
    no_bids := [⟨9/20, 100⟩], no_asks := [⟨47/100, 100⟩] }

/-- Same book except NO ask 0.475001: the combined effective cost is then
exactly `threshold + 1e-6`, inside the code's epsilon tolerance. -/
def epsilonBookC1 : OrderBookContext :=
  { yes_bids := [⟨1/2, 100⟩], yes_asks := [⟨13/25, 100⟩]
    no_bids := [⟨9/20, 100⟩], no_asks := [⟨475001/1000000, 100⟩] }

/-- The position of the spec's locked-profit example: 11 YES units at total
cost 1, no NO units. -/
def examplePositionC5 : PositionContext :=
  { yes_size := 11, yes_avg_cost := 1/11, yes_total_cost := 1 }

/-- The book of the spec's locked-profit example: NO best ask 0.48. -/
def exampleBookC5 : OrderBookContext :=
  { no_asks := [⟨12/25, 100⟩] }

/-- The all-zero position a task starts with. -/
def emptyPosition : PositionContext := {}

/-- A small duplicate-free ladder used to instantiate the delta-application
theorem. -/
def demoLadder : List OrderLevel := [⟨1/2, 5⟩, ⟨3/5, 2⟩]

/-- A full-book message whose bid ladder repeats a price and crosses its own
ask ladder; the code stores it verbatim. -/
def crossedBookMsg : BookMessage :=
  .fullBook "Y" [⟨9/10, 1⟩, ⟨9/10, 2⟩] [⟨1/2, 1⟩]

/-- A benign message sequence (a full book then a delta) used to instantiate
the duplicate-freedom theorem. -/
def demoMsgsC4 : List BookMessage :=
  [.fullBook "Y" [⟨3/5, 1⟩, ⟨1/2, 2⟩] [⟨7/10, 1⟩],
   .priceChange [⟨"Y", "BUY", 11/20, 4⟩, ⟨"N", "SELL", 2/5, 1⟩]]

/-- A validated BUY signal whose YES leg is nonzero but smaller than the
executor's `min_order_amount`. -/
def tinyLegSignal : TradingSignal :=
  { signal_type := .BUY, yes_size := some (1/2), yes_price := some (1/2) }

/-- A BUY signal with two executable legs. -/
def twoLegSignal : TradingSignal :=
  { signal_type := .BUY
    yes_size := some 5, yes_price := some (13/25)
    no_size := some 5, no_price := some (47/100) }

/-- A SELL signal with two executable legs. -/
def twoLegSellSignal : TradingSignal :=
  { signal_type := .SELL
    yes_size := some 4, yes_price := some (3/5)
    no_size := some 2, no_price := some (2/5) }

/-- A position holding 10 units of each outcome at average cost 0.5, used
to exercise the executor's sell path. -/
def heldPosition : PositionContext :=
  { yes_size := 10, no_size := 10, yes_avg_cost := 1/2, no_avg_cost := 1/2
    yes_total_cost := 5, no_total_cost := 5 }

/-! ### Helper lemmas about the dictionary model -/

theorem dictUpsert_keys_of_mem (m : List LevelEntry) (k v : ℚ)
    (h : k ∈ m.map Prod.fst) :
    (dictUpsert m k v).map Prod.fst = m.map Prod.fst := by
  unfold dictUpsert
  rw [if_pos h, List.map_map]
  apply List.map_congr_left
  intro kv _
  by_cases hk : kv.1 = k
  · simp [hk]
  · simp [hk]

theorem dictUpsert_keys_of_not_mem (m : List LevelEntry) (k v : ℚ)
    (h : k ∉ m.map Prod.fst) :
    (dictUpsert m k v).map Prod.fst = m.map Prod.fst ++ [k] := by
  unfold dictUpsert
  rw [if_neg h, List.map_append]
  rfl

theorem dictUpsert_keys_nodup (m : List LevelEntry) (k v : ℚ)
    (h : (m.map Prod.fst).Nodup) :
    ((dictUpsert m k v).map Prod.fst).Nodup := by
  by_cases hm : k ∈ m.map Prod.fst
  · rw [dictUpsert_keys_of_mem m k v hm]; exact h
  · rw [dictUpsert_keys_of_not_mem m k v hm]
    rw [List.nodup_append]
    exact ⟨h, List.nodup_singleton k, by simpa using hm⟩

theorem dictPop_keys (m : List LevelEntry) (k : ℚ) :
    (dictPop m k).map Prod.fst = (m.map Prod.fst).filter (fun q => decide (q ≠ k)) := by
  unfold dictPop
  rw [List.filter_map]
  rfl

theorem dictPop_keys_nodup (m : List LevelEntry) (k : ℚ)
    (h : (m.map Prod.fst).Nodup) :
    ((dictPop m k).map Prod.fst).Nodup := by
  rw [dictPop_keys]
  exact h.filter _

theorem foldl_dictUpsert_keys_nodup (levels : List OrderLevel) :
    ∀ acc : List LevelEntry, (acc.map Prod.fst).Nodup →
      ((levels.foldl (fun m l => dictUpsert m l.price l.size) acc).map Prod.fst).Nodup := by
  induction levels with
  | nil => intro acc h; exact h
  | cons l ls ih =>
    intro acc h
    exact ih _ (dictUpsert_keys_nodup acc l.price l.size h)

theorem buildLevelMap_keys_nodup (levels : List OrderLevel) :
    ((buildLevelMap levels).map Prod.fst).Nodup :=
  foldl_dictUpsert_keys_nodup levels [] List.nodup_nil

theorem applyPriceChange_prices (levels : List OrderLevel) (price size : ℚ) :
    (applyPriceChange levels price size).map OrderLevel.price =
      ((if size ≤ 0 then dictPop (buildLevelMap levels) price
        else dictUpsert (buildLevelMap levels) price size).map Prod.fst) := by
  unfold applyPriceChange
  rw [List.map_map]
  rfl

/-- A ladder that just went through `applyPriceChange` never repeats a
price: it is rebuilt from a dictionary. -/
theorem applyPriceChange_prices_nodup (levels : List OrderLevel) (price size : ℚ) :
    ((applyPriceChange levels price size).map OrderLevel.price).Nodup := by
  rw [applyPriceChange_prices]
  by_cases hs : size ≤ 0
  · rw [if_pos hs]
    exact dictPop_keys_nodup _ _ (buildLevelMap_keys_nodup levels)
  · rw [if_neg hs]
    exact dictUpsert_keys_nodup _ _ _ (buildLevelMap_keys_nodup levels)

theorem foldl_dictUpsert_of_disjoint (levels : List OrderLevel) :
    ∀ acc : List LevelEntry,
      (acc.map Prod.fst ++ levels.map OrderLevel.price).Nodup →
      levels.foldl (fun m l => dictUpsert m l.price l.size) acc =
        acc ++ levels.map (fun l => (l.price, l.size)) := by
  induction levels with
  | nil => intro acc _; simp
  | cons l ls ih =>
    intro acc h
    have hmem : l.price ∉ acc.map Prod.fst := by
      intro hk
      rcases List.nodup_append.mp h with ⟨_, _, hdisj⟩
      exact hdisj hk (by simp)
    have hstep : dictUpsert acc l.price l.size = acc ++ [(l.price, l.size)] := by
      unfold dictUpsert
      rw [if_neg hmem]
    rw [List.foldl_cons, hstep, ih (acc ++ [(l.price, l.size)])]
    · simp
    · simpa using h

theorem buildLevelMap_of_nodup (levels : List OrderLevel)
    (h : (levels.map OrderLevel.price).Nodup) :
    buildLevelMap levels = levels.map (fun l => (l.price, l.size)) := by
  have := foldl_dictUpsert_of_disjoint levels [] (by simpa using h)
  simpa [buildLevelMap] using this

theorem map_pair_roundTrip (levels : List OrderLevel) :
    (levels.map (fun l => (l.price, l.size))).map
      (fun kv : LevelEntry => OrderLevel.mk kv.1 kv.2) = levels := by
  rw [List.map_map]
  have h : ((fun kv : LevelEntry => OrderLevel.mk kv.1 kv.2) ∘
      fun l : OrderLevel => (l.price, l.size)) = id := by
    funext l
    rfl
  rw [h, List.map_id]

theorem applyPriceChange_zero (levels : List OrderLevel) (price : ℚ)
    (h : (levels.map OrderLevel.price).Nodup) :
    applyPriceChange levels price 0 =
      levels.filter (fun l => decide (l.price ≠ price)) := by
  unfold applyPriceChange
  dsimp only
  rw [if_pos (le_refl (0:ℚ)), buildLevelMap_of_nodup levels h]
  unfold dictPop
  rw [List.filter_map, map_pair_roundTrip]
  rfl

theorem applyPriceChange_zero_absent (levels : List OrderLevel) (price : ℚ)
    (h : (levels.map OrderLevel.price).Nodup)
    (habs : price ∉ levels.map OrderLevel.price) :
    applyPriceChange levels price 0 = levels := by
  rw [applyPriceChange_zero levels price h]
  apply List.filter_eq_self.mpr
  intro l hl
  simp only [ne_eq, decide_eq_true_eq]
  intro he
  exact habs (he ▸ List.mem_map_of_mem OrderLevel.price hl)

theorem applyPriceChange_pos_mem (levels : List OrderLevel) (price size : ℚ)
    (h : (levels.map OrderLevel.price).Nodup) (hs : 0 < size)
    (hmem : price ∈ levels.map OrderLevel.price) :
    applyPriceChange levels price size =
      levels.map (fun l => if l.price = price then OrderLevel.mk price size else l) := by
  unfold applyPriceChange
  dsimp only
  rw [if_neg (not_le.mpr hs), buildLevelMap_of_nodup levels h]
  have hmem2 : price ∈ (levels.map (fun l => (l.price, l.size))).map Prod.fst := by
    rw [List.map_map]
    exact hmem
  unfold dictUpsert
  rw [if_pos hmem2, List.map_map, List.map_map]
  apply List.map_congr_left
  intro l _
  by_cases hp : l.price = price
  · simp [hp]
  · simp [hp]

theorem applyPriceChange_pos_not_mem (levels : List OrderLevel) (price size : ℚ)
    (h : (levels.map OrderLevel.price).Nodup) (hs : 0 < size)
    (habs : price ∉ levels.map OrderLevel.price) :
    applyPriceChange levels price size = levels ++ [⟨price, size⟩] := by
  unfold applyPriceChange
  dsimp only
  rw [if_neg (not_le.mpr hs), buildLevelMap_of_nodup levels h]
  have habs2 : price ∉ (levels.map (fun l => (l.price, l.size))).map Prod.fst := by
    rw [List.map_map]
    exact habs
  unfold dictUpsert
  rw [if_neg habs2, List.map_append, map_pair_roundTrip]
  rfl

theorem sortBidsDesc_sorted (l : List OrderLevel) : (sortBidsDesc l).Sorted bidGE :=
  List.sorted_insertionSort bidGE l

theorem sortAsksAsc_sorted (l : List OrderLevel) : (sortAsksAsc l).Sorted askLE :=
  List.sorted_insertionSort askLE l

theorem sortBidsDesc_perm (l : List OrderLevel) : (sortBidsDesc l).Perm l :=
  List.perm_insertionSort bidGE l

theorem sortAsksAsc_perm (l : List OrderLevel) : (sortAsksAsc l).Perm l :=
  List.perm_insertionSort askLE l

theorem sortBidsDesc_prices_nodup (l : List OrderLevel)
    (h : (l.map OrderLevel.price).Nodup) :
    ((sortBidsDesc l).map OrderLevel.price).Nodup :=
  (((sortBidsDesc_perm l).map OrderLevel.price).nodup_iff).mpr h

theorem sortAsksAsc_prices_nodup (l : List OrderLevel)
    (h : (l.map OrderLevel.price).Nodup) :
    ((sortAsksAsc l).map OrderLevel.price).Nodup :=
  (((sortAsksAsc_perm l).map OrderLevel.price).nodup_iff).mpr h

/-! ### Ladder invariant lemmas (claim C4 machinery) -/

theorem refreshPrices_yes_bids (st : StrategyState) :
    (refreshPrices st).yes_bids = st.yes_bids := by
  unfold refreshPrices
  dsimp only
  split <;> split <;> rfl

theorem refreshPrices_yes_asks (st : StrategyState) :
    (refreshPrices st).yes_asks = st.yes_asks := by
  unfold refreshPrices
  dsimp only
  split <;> split <;> rfl

theorem refreshPrices_no_bids (st : StrategyState) :
    (refreshPrices st).no_bids = st.no_bids := by
  unfold refreshPrices
  dsimp only
  split <;> split <;> rfl

theorem refreshPrices_no_asks (st : StrategyState) :
    (refreshPrices st).no_asks = st.no_asks := by
  unfold refreshPrices
  dsimp only
  split <;> split <;> rfl

theorem refreshPrices_ladders_nodup (st : StrategyState)
    (h : LaddersNodup st) : LaddersNodup (refreshPrices st) := by
  unfold LaddersNodup
  rw [refreshPrices_yes_bids, refreshPrices_yes_asks, refreshPrices_no_bids,
    refreshPrices_no_asks]
  exact h

theorem applyOneChange_nodup (st : StrategyState) (c : PriceChangeEntry)
    (h : LaddersNodup st) : LaddersNodup (applyOneChange st c) := by
  obtain ⟨h1, h2, h3, h4⟩ := h
  unfold applyOneChange
  split
  · exact ⟨h1, h2, h3, h4⟩
  split
  · exact ⟨h1, h2, h3, h4⟩
  split
  · split
    · exact ⟨sortBidsDesc_prices_nodup _ (applyPriceChange_prices_nodup _ _ _), h2, h3, h4⟩
    split
    · exact ⟨h1, sortAsksAsc_prices_nodup _ (applyPriceChange_prices_nodup _ _ _), h3, h4⟩
    · exact ⟨h1, h2, h3, h4⟩
  split
  · split
    · exact ⟨h1, h2, sortBidsDesc_prices_nodup _ (applyPriceChange_prices_nodup _ _ _), h4⟩
    split
    · exact ⟨h1, h2, h3, sortAsksAsc_prices_nodup _ (applyPriceChange_prices_nodup _ _ _)⟩
    · exact ⟨h1, h2, h3, h4⟩
  · exact ⟨h1, h2, h3, h4⟩

theorem foldl_applyOneChange_nodup (changes : List PriceChangeEntry) :
    ∀ st : StrategyState, LaddersNodup st →
      LaddersNodup (changes.foldl applyOneChange st) := by
  induction changes with
  | nil => intro st h; exact h
  | cons c cs ih => intro st h; exact ih _ (applyOneChange_nodup st c h)

theorem updateBook_nodup (st : StrategyState) (msg : BookMessage)
    (h : LaddersNodup st) (hmsg : fullBookNodup msg) :
    LaddersNodup (updateBook st msg) := by
  match msg with
  | .priceChange changes =>
    exact refreshPrices_ladders_nodup _ (foldl_applyOneChange_nodup changes st h)
  | .fullBook asset_id bids asks =>
    obtain ⟨hb, ha⟩ := hmsg
    obtain ⟨h1, h2, h3, h4⟩ := h
    unfold updateBook
    dsimp only
    split
    · exact ⟨h1, h2, h3, h4⟩
    split
    · apply refreshPrices_ladders_nodup
      unfold LaddersNodup
      split <;> split <;> simp_all
    split
    · apply refreshPrices_ladders_nodup
      unfold LaddersNodup
      split <;> split <;> simp_all
    · exact refreshPrices_ladders_nodup _ ⟨h1, h2, h3, h4⟩

theorem applyMessages_nodup (msgs : List BookMessage) :
    ∀ st : StrategyState, LaddersNodup st →
      (∀ m ∈ msgs, fullBookNodup m) →
      LaddersNodup (applyMessages st msgs) := by
  induction msgs with
  | nil => intro st h _; exact h
  | cons m ms ih =>
    intro st h hall
    exact ih _ (updateBook_nodup st m h (hall m (List.mem_cons_self m ms)))
      (fun x hx => hall x (List.mem_cons_of_mem m hx))

/-! ### Claim theorems -/

/-- Claim C1 (amended): for every market view with all four best prices
present, a positive total budget and a positive combined effective cost,
the merge-arbitrage strategy computes eff_yes = min(yes_ask, 1 - no_bid)
and eff_no = min(no_ask, 1 - yes_bid) and emits a BUY signal with those
prices and equal leg sizes total_budget / (eff_yes + eff_no) exactly when
eff_yes + eff_no ≤ 1 - min_gap + 1e-6 (the code compares the cost against
the threshold with an epsilon tolerance of 1e-6), returning HOLD when the
sum exceeds that tolerant threshold; if any of the four prices is missing
it returns HOLD. -/
theorem merge_long_buy_exactly_when_cost_below_threshold :
    (∀ ob g b, (ob.yes_best_ask = none ∨ ob.no_best_ask = none ∨
        ob.yes_best_bid = none ∨ ob.no_best_bid = none) →
      (mergeLongGenerateSignal ob g b).signal_type = .HOLD) ∧
    (∀ (ob : OrderBookContext) (ya na yb nb g budget : ℚ),
      ob.yes_best_ask = some ya → ob.no_best_ask = some na →
      ob.yes_best_bid = some yb → ob.no_best_bid = some nb →
      0 < budget → 0 < min ya (1 - nb) + min na (1 - yb) →
      ((min ya (1 - nb) + min na (1 - yb) ≤ 1 - g + 1/1000000 →
        mergeLongGenerateSignal ob (some g) (some budget) =
          { signal_type := .BUY
            yes_size := some (budget / (min ya (1 - nb) + min na (1 - yb)))
            no_size := some (budget / (min ya (1 - nb) + min na (1 - yb)))
            yes_price := some (min ya (1 - nb))
            no_price := some (min na (1 - yb))
            reason := "arbitrage" }) ∧
       (1 - g + 1/1000000 < min ya (1 - nb) + min na (1 - yb) →
        (mergeLongGenerateSignal ob (some g) (some budget)).signal_type = .HOLD))) := by
  constructor
  · intro ob g b hmiss
    unfold mergeLongGenerateSignal
    cases hA : ob.yes_best_ask <;> cases hB : ob.no_best_ask <;>
      cases hC : ob.yes_best_bid <;> cases hD : ob.no_best_bid <;>
      simp_all
  · intro ob ya na yb nb g budget hya hna hyb hnb hb hc
    unfold mergeLongGenerateSignal
    rw [hya, hna, hyb, hnb]
    constructor
    · intro hle
      simp only [Option.getD_some]
      rw [if_neg (not_le.mpr hb), if_neg (not_lt.mpr hle), if_neg (not_le.mpr hc),
        if_neg (not_le.mpr (div_pos hb hc))]
    · intro hgt
      simp only [Option.getD_some]
      rw [if_neg (not_le.mpr hb), if_pos hgt]

/-- Witness for C1: the spec's example book (YES 0.52/0.50, NO 0.47/0.45).
With min_gap 0.005 and budget 10 the strategy BUYs size 1000/99 ≈ 10.10 at
prices 0.52 / 0.47; with min_gap 0.02 it HOLDs. -/
theorem merge_long_buy_exactly_when_cost_below_threshold_witness :
    mergeLongGenerateSignal exampleBookC1 (some (1/200)) (some 10) =
      { signal_type := .BUY
        yes_size := some (1000/99), no_size := some (1000/99)
        yes_price := some (13/25), no_price := some (47/100)
        reason := "arbitrage" } ∧
    (mergeLongGenerateSignal exampleBookC1 (some (1/50)) (some 10)).signal_type = .HOLD := by
  have hya : exampleBookC1.yes_best_ask = some (13/25) := by
    norm_num [exampleBookC1, OrderBookContext.yes_best_ask, bestAskPrice]
  have hna : exampleBookC1.no_best_ask = some (47/100) := by
    norm_num [exampleBookC1, OrderBookContext.no_best_ask, bestAskPrice]
  have hyb : exampleBookC1.yes_best_bid = some (1/2) := by
    norm_num [exampleBookC1, OrderBookContext.yes_best_bid, bestBidPrice]
  have hnb : exampleBookC1.no_best_bid = some (9/20) := by
    norm_num [exampleBookC1, OrderBookContext.no_best_bid, bestBidPrice]
  constructor
  · have h1 := (merge_long_buy_exactly_when_cost_below_threshold.2 exampleBookC1
      (13/25) (47/100) (1/2) (9/20) (1/200) 10 hya hna hyb hnb (by norm_num)
      (by norm_num [min_def])).1 (by norm_num [min_def])
    rw [h1]
    norm_num [min_def]
  · exact (merge_long_buy_exactly_when_cost_below_threshold.2 exampleBookC1
      (13/25) (47/100) (1/2) (9/20) (1/50) 10 hya hna hyb hnb (by norm_num)
      (by norm_num [min_def])).2 (by norm_num [min_def])

/-- Counterexample for C1 as stated: with NO ask 0.475001 and min_gap 0.005
the combined effective cost 0.995001 exceeds 1 - min_gap = 0.995, so the
claim demands HOLD, yet the code emits BUY (the cost is within its 1e-6
epsilon tolerance). -/
theorem merge_long_epsilon_band_buys :
    (mergeLongGenerateSignal epsilonBookC1 (some (1/200)) (some 10)).signal_type = .BUY ∧
    ¬(min (13/25 : ℚ) (1 - 9/20) + min (475001/1000000 : ℚ) (1 - 1/2) ≤ 1 - 1/200) := by
  constructor
  · norm_num [mergeLongGenerateSignal, epsilonBookC1, OrderBookContext.yes_best_ask,
      OrderBookContext.no_best_ask, OrderBookContext.yes_best_bid,
      OrderBookContext.no_best_bid, bestAskPrice, bestBidPrice, min_def]
  · norm_num [min_def]

/-- Claim C3: applying a delta entry (price, size) to a duplicate-free bid
or ask ladder removes the level at that price when size is 0 (a no-op when
no such level is present), inserts-or-replaces the level when size is
positive, and the ladder sorted afterwards (bids descending, asks
ascending by price) is indeed sorted and is a permutation of the updated
ladder. -/
theorem delta_application_removes_or_upserts_then_sorts
    (levels : List OrderLevel) (price size : ℚ)
    (h : (levels.map OrderLevel.price).Nodup) :
    (applyPriceChange levels price 0 =
      levels.filter (fun l => decide (l.price ≠ price))) ∧
    (price ∉ levels.map OrderLevel.price → applyPriceChange levels price 0 = levels) ∧
    (0 < size → price ∈ levels.map OrderLevel.price →
      applyPriceChange levels price size =
        levels.map (fun l => if l.price = price then OrderLevel.mk price size else l)) ∧
    (0 < size → price ∉ levels.map OrderLevel.price →
      applyPriceChange levels price size = levels ++ [⟨price, size⟩]) ∧
    (sortBidsDesc (applyPriceChange levels price size)).Sorted bidGE ∧
    (sortAsksAsc (applyPriceChange levels price size)).Sorted askLE ∧
    (sortBidsDesc (applyPriceChange levels price size)).Perm
      (applyPriceChange levels price size) ∧
    (sortAsksAsc (applyPriceChange levels price size)).Perm
      (applyPriceChange levels price size) :=
  ⟨applyPriceChange_zero levels price h,
   applyPriceChange_zero_absent levels price h,
   fun hs hmem => applyPriceChange_pos_mem levels price size h hs hmem,
   fun hs habs => applyPriceChange_pos_not_mem levels price size h hs habs,
   sortBidsDesc_sorted _, sortAsksAsc_sorted _, sortBidsDesc_perm _, sortAsksAsc_perm _⟩

/-- Witness for C3 on a concrete two-level ladder: a size-0 delta removes
the matching level, is a no-op for an absent price, and a positive delta
replaces the matching level. -/
theorem delta_application_removes_or_upserts_then_sorts_witness :
    applyPriceChange demoLadder (1/2) 0 = [⟨3/5, 2⟩] ∧
    applyPriceChange demoLadder (7/10) 0 = demoLadder ∧
    applyPriceChange demoLadder (3/5) 4 = [⟨1/2, 5⟩, ⟨3/5, 4⟩] := by
  have hnodup : (demoLadder.map OrderLevel.price).Nodup := by
    norm_num [demoLadder]
  refine ⟨?_, ?_, ?_⟩
  · have h := (delta_application_removes_or_upserts_then_sorts demoLadder (1/2) 0 hnodup).1
    rw [h]
    norm_num [demoLadder, List.filter]
  · exact (delta_application_removes_or_upserts_then_sorts demoLadder (7/10) 0
      hnodup).2.1 (by norm_num [demoLadder])
  · have h := (delta_application_removes_or_upserts_then_sorts demoLadder (3/5) 4
      hnodup).2.2.1 (by norm_num) (by norm_num [demoLadder])
    rw [h]
    norm_num [demoLadder]

/-- Claim C4 (amended): for every sequence of full-book and delta messages
applied to an initially empty order-book state, provided each full-book
message's own ladders are duplicate-free, the resulting ladders never
contain two levels with the same price.  (The no-crossed-book half of the
original claim is false: the code performs no reconciliation between the
two sides; see the counterexample.) -/
theorem book_state_ladders_never_duplicate_prices
    (yesTok noTok : String) (msgs : List BookMessage)
    (h : ∀ m ∈ msgs, fullBookNodup m) :
    LaddersNodup (applyMessages (initStrategyState yesTok noTok) msgs) := by
  apply applyMessages_nodup msgs _ _ h
  exact ⟨List.nodup_nil, List.nodup_nil, List.nodup_nil, List.nodup_nil⟩

/-- Witness for C4: a full book for the YES token followed by two deltas
leaves every ladder duplicate-free. -/
theorem book_state_ladders_never_duplicate_prices_witness :
    LaddersNodup (applyMessages (initStrategyState "Y" "N") demoMsgsC4) := by
  apply book_state_ladders_never_duplicate_prices "Y" "N" demoMsgsC4
  intro m hm
  simp only [demoMsgsC4, List.mem_cons, List.not_mem_nil, or_false] at hm
  rcases hm with h | h <;> subst h <;> norm_num [fullBookNodup]

/-- Counterexample for C4 as stated: a single full-book message whose bid
ladder repeats price 0.9 and whose ask ladder quotes 0.5 is stored
verbatim, so the resulting YES ladder has duplicate prices and the best
bid 0.9 strictly exceeds the best ask 0.5 -- a crossed book. -/
theorem book_state_can_cross_and_duplicate :
    ¬(((applyMessages (initStrategyState "Y" "N") [crossedBookMsg]).yes_bids.map
        OrderLevel.price).Nodup) ∧
    bestBidPrice (applyMessages (initStrategyState "Y" "N") [crossedBookMsg]).yes_bids =
      some (9/10) ∧
    bestAskPrice (applyMessages (initStrategyState "Y" "N") [crossedBookMsg]).yes_asks =
      some (1/2) ∧
    ¬((9:ℚ)/10 ≤ 1/2) := by
  have hyes : (applyMessages (initStrategyState "Y" "N") [crossedBookMsg]).yes_bids =
      [⟨9/10, 1⟩, ⟨9/10, 2⟩] := by
    simp [applyMessages, crossedBookMsg, updateBook, initStrategyState,
      refreshPrices_yes_bids]
  have hask : (applyMessages (initStrategyState "Y" "N") [crossedBookMsg]).yes_asks =
      [⟨1/2, 1⟩] := by
    simp [applyMessages, crossedBookMsg, updateBook, initStrategyState,
      refreshPrices_yes_asks]
  refine ⟨?_, ?_, ?_, by norm_num⟩
  · rw [hyes]
    norm_num
  · rw [hyes]
    norm_num [bestBidPrice]
  · rw [hask]
    norm_num [bestAskPrice]

/-! ### Position-update helper lemmas -/

theorem update_position_yes_buy (pos : PositionContext) (s p : ℚ) :
    pos.update_position "YES" s p true =
      { pos with
        yes_total_cost := pos.yes_total_cost + s * p
        yes_size := pos.yes_size + s
        yes_avg_cost := if 0 < pos.yes_size + s
          then (pos.yes_total_cost + s * p) / (pos.yes_size + s) else 0 } := rfl

theorem update_position_no_buy (pos : PositionContext) (s p : ℚ) :
    pos.update_position "NO" s p true =
      { pos with
        no_total_cost := pos.no_total_cost + s * p
        no_size := pos.no_size + s
        no_avg_cost := if 0 < pos.no_size + s
          then (pos.no_total_cost + s * p) / (pos.no_size + s) else 0 } := rfl

theorem update_position_yes_sell (pos : PositionContext) (s p : ℚ) :
    pos.update_position "YES" s p false =
      (if max 0 (pos.yes_size - s) = 0 then
        { pos with yes_size := max 0 (pos.yes_size - s)
                   yes_total_cost := 0, yes_avg_cost := 0 }
      else { pos with yes_size := max 0 (pos.yes_size - s) }) := rfl

theorem update_position_no_sell (pos : PositionContext) (s p : ℚ) :
    pos.update_position "NO" s p false =
      (if max 0 (pos.no_size - s) = 0 then
        { pos with no_size := max 0 (pos.no_size - s)
                   no_total_cost := 0, no_avg_cost := 0 }
      else { pos with no_size := max 0 (pos.no_size - s) }) := rfl

theorem update_position_other (pos : PositionContext) (side : String) (s p : ℚ)
    (b : Bool) (h1 : strUpper side ≠ "YES") (h2 : strUpper side ≠ "NO") :
    pos.update_position side s p b = pos := by
  unfold PositionContext.update_position
  dsimp only
  rw [if_neg h1, if_neg h2]

theorem update_position_congr (pos : PositionContext) (s1 s2 : String)
    (sz p : ℚ) (b : Bool) (h : strUpper s1 = strUpper s2) :
    pos.update_position s1 sz p b = pos.update_position s2 sz p b := by
  unfold PositionContext.update_position
  rw [h]

/-- Claim C2: on a buy the total cost grows by size·price, the size grows
by the bought size, and the average cost is total/size (0 when the new size
is 0); on a sell the size drops by the sold amount but never below 0, and
hitting size 0 resets total and average cost to 0.  Consequently two buys
of size s at price p from a flat position give size 2s at average cost p,
and selling s afterwards leaves size s at average cost p. -/
theorem position_update_accounting :
    (∀ (pos : PositionContext) (s p : ℚ), 0 ≤ pos.yes_size → 0 ≤ s →
      ((pos.update_position "YES" s p true).yes_total_cost =
          pos.yes_total_cost + s * p ∧
       (pos.update_position "YES" s p true).yes_size = pos.yes_size + s ∧
       (pos.update_position "YES" s p true).yes_avg_cost =
         (if pos.yes_size + s = 0 then 0
          else (pos.yes_total_cost + s * p) / (pos.yes_size + s)))) ∧
    (∀ (pos : PositionContext) (s p : ℚ), 0 ≤ pos.no_size → 0 ≤ s →
      ((pos.update_position "NO" s p true).no_total_cost =
          pos.no_total_cost + s * p ∧
       (pos.update_position "NO" s p true).no_size = pos.no_size + s ∧
       (pos.update_position "NO" s p true).no_avg_cost =
         (if pos.no_size + s = 0 then 0
          else (pos.no_total_cost + s * p) / (pos.no_size + s)))) ∧
    (∀ (pos : PositionContext) (s p : ℚ),
      ((pos.update_position "YES" s p false).yes_size = max 0 (pos.yes_size - s) ∧
       ((pos.update_position "YES" s p false).yes_size = 0 →
         (pos.update_position "YES" s p false).yes_total_cost = 0 ∧
         (pos.update_position "YES" s p false).yes_avg_cost = 0))) ∧
    (∀ (pos : PositionContext) (s p : ℚ),
      ((pos.update_position "NO" s p false).no_size = max 0 (pos.no_size - s) ∧
       ((pos.update_position "NO" s p false).no_size = 0 →
         (pos.update_position "NO" s p false).no_total_cost = 0 ∧
         (pos.update_position "NO" s p false).no_avg_cost = 0))) ∧
    (∀ (s p : ℚ), 0 < s →
      ((emptyPosition.update_position "YES" s p true).update_position
          "YES" s p true).yes_size = 2 * s ∧
      ((emptyPosition.update_position "YES" s p true).update_position
          "YES" s p true).yes_avg_cost = p ∧
      (((emptyPosition.update_position "YES" s p true).update_position
          "YES" s p true).update_position "YES" s p false).yes_size = s ∧
      (((emptyPosition.update_position "YES" s p true).update_position
          "YES" s p true).update_position "YES" s p false).yes_avg_cost = p) := by
  have havg : ∀ (a b : ℚ), 0 ≤ a → 0 ≤ b →
      (if 0 < a + b then (1:ℚ) else 0) = (if a + b = 0 then 0 else 1) := by
    intro a b ha hb
    by_cases hz : a + b = 0
    · rw [if_pos hz, if_neg (by rw [hz]; exact lt_irrefl 0)]
    · rw [if_neg hz, if_pos (lt_of_le_of_ne (add_nonneg ha hb) (Ne.symm hz))]
  refine ⟨?_, ?_, ?_, ?_, ?_⟩
  · intro pos s p h0 hs
    rw [update_position_yes_buy]
    refine ⟨rfl, rfl, ?_⟩
    by_cases hz : pos.yes_size + s = 0
    · rw [if_neg (by rw [hz]; exact lt_irrefl 0), if_pos hz]
    · rw [if_pos (lt_of_le_of_ne (add_nonneg h0 hs) (Ne.symm hz)), if_neg hz]
  · intro pos s p h0 hs
    rw [update_position_no_buy]
    refine ⟨rfl, rfl, ?_⟩
    by_cases hz : pos.no_size + s = 0
    · rw [if_neg (by rw [hz]; exact lt_irrefl 0), if_pos hz]
    · rw [if_pos (lt_of_le_of_ne (add_nonneg h0 hs) (Ne.symm hz)), if_neg hz]
  · intro pos s p
    rw [update_position_yes_sell]
    constructor
    · by_cases hz : max 0 (pos.yes_size - s) = 0
      · rw [if_pos hz]
      · rw [if_neg hz]
    · intro hzero
      by_cases hz : max 0 (pos.yes_size - s) = 0
      · rw [if_pos hz]
        exact ⟨rfl, rfl⟩
      · rw [if_neg hz] at hzero ⊢
        exact absurd hzero hz
  · intro pos s p
    rw [update_position_no_sell]
    constructor
    · by_cases hz : max 0 (pos.no_size - s) = 0
      · rw [if_pos hz]
      · rw [if_neg hz]
    · intro hzero
      by_cases hz : max 0 (pos.no_size - s) = 0
      · rw [if_pos hz]
        exact ⟨rfl, rfl⟩
      · rw [if_neg hz] at hzero ⊢
        exact absurd hzero hz
  · intro s p hs
    have hb1 : emptyPosition.update_position "YES" s p true =
        { yes_size := s, yes_avg_cost := s * p / s, yes_total_cost := s * p } := by
      rw [update_position_yes_buy]
      simp only [emptyPosition]
      norm_num [hs]
    have hb2 : ({ yes_size := s, yes_avg_cost := s * p / s, yes_total_cost := s * p } :
        PositionContext).update_position "YES" s p true =
        { yes_size := 2 * s, yes_avg_cost := p, yes_total_cost := 2 * (s * p) } := by
      rw [update_position_yes_buy]
      have h2s : (0:ℚ) < s + s := by linarith
      simp only [if_pos h2s]
      have hsum : s * p + s * p = 2 * (s * p) := by ring
      have havg2 : (s * p + s * p) / (s + s) = p := by
        rw [div_eq_iff (by linarith : s + s ≠ 0)]
        ring
      have hss : s + s = 2 * s := by ring
      rw [havg2, hsum, hss]
    have hb3 : ({ yes_size := 2 * s, yes_avg_cost := p, yes_total_cost := 2 * (s * p) } :
        PositionContext).update_position "YES" s p false =
        { yes_size := s, yes_avg_cost := p, yes_total_cost := 2 * (s * p) } := by
      rw [update_position_yes_sell]
      have hmax : max 0 (2 * s - s) = s := by
        rw [max_eq_right (by linarith : (0:ℚ) ≤ 2 * s - s)]
        ring
      rw [if_neg (by rw [hmax]; exact ne_of_gt hs)]
      simp [hmax]
    rw [hb1, hb2, hb3]
    exact ⟨rfl, rfl, rfl, rfl⟩

/-- Witness for C2 at s = 3, p = 1/2 and a concrete starting position. -/
theorem position_update_accounting_witness :
    (({ yes_size := 2, yes_total_cost := 1 } :
        PositionContext).update_position "YES" 3 (1/2) true).yes_size = 5 ∧
    (({ yes_size := 2, yes_total_cost := 1 } :
        PositionContext).update_position "YES" 3 (1/2) true).yes_avg_cost = 1/2 ∧
    ((emptyPosition.update_position "YES" 3 (1/2) true).update_position
        "YES" 3 (1/2) true).yes_avg_cost = 1/2 := by
  have h1 := position_update_accounting.1
    { yes_size := 2, yes_total_cost := 1 } 3 (1/2) (by norm_num) (by norm_num)
  have h2 := position_update_accounting.2.2.2.2 3 (1/2) (by norm_num)
  refine ⟨?_, ?_, h2.2.1⟩
  · rw [h1.2.1]
    norm_num
  · rw [h1.2.2]
    norm_num

/-- Claim C10: update_position with a side upper-casing to YES leaves the NO
fields unchanged and symmetrically for NO; the side is matched after
upper-casing (the result depends only on the upper-cased side); any side
upper-casing to neither YES nor NO leaves the whole position unchanged. -/
theorem position_update_frame :
    (∀ (pos : PositionContext) (side : String) (s p : ℚ) (b : Bool),
      strUpper side = "YES" →
        ((pos.update_position side s p b).no_size = pos.no_size ∧
         (pos.update_position side s p b).no_avg_cost = pos.no_avg_cost ∧
         (pos.update_position side s p b).no_total_cost = pos.no_total_cost)) ∧
    (∀ (pos : PositionContext) (side : String) (s p : ℚ) (b : Bool),
      strUpper side = "NO" →
        ((pos.update_position side s p b).yes_size = pos.yes_size ∧
         (pos.update_position side s p b).yes_avg_cost = pos.yes_avg_cost ∧
         (pos.update_position side s p b).yes_total_cost = pos.yes_total_cost)) ∧
    (∀ (pos : PositionContext) (side : String) (s p : ℚ) (b : Bool),
      strUpper side ≠ "YES" → strUpper side ≠ "NO" →
        pos.update_position side s p b = pos) ∧
    (∀ (pos : PositionContext) (s1 s2 : String) (sz p : ℚ) (b : Bool),
      strUpper s1 = strUpper s2 →
        pos.update_position s1 sz p b = pos.update_position s2 sz p b) := by
  refine ⟨?_, ?_, update_position_other, update_position_congr⟩
  · intro pos side s p b h
    rw [update_position_congr pos side "YES" s p b (by rw [h]; rfl)]
    cases b
    · rw [update_position_yes_sell]
      by_cases hz : max 0 (pos.yes_size - s) = 0
      · rw [if_pos hz]
        exact ⟨rfl, rfl, rfl⟩
      · rw [if_neg hz]
        exact ⟨rfl, rfl, rfl⟩
    · rw [update_position_yes_buy]
      exact ⟨rfl, rfl, rfl⟩
  · intro pos side s p b h
    rw [update_position_congr pos side "NO" s p b (by rw [h]; rfl)]
    cases b
    · rw [update_position_no_sell]
      by_cases hz : max 0 (pos.no_size - s) = 0
      · rw [if_pos hz]
        exact ⟨rfl, rfl, rfl⟩
      · rw [if_neg hz]
        exact ⟨rfl, rfl, rfl⟩
    · rw [update_position_no_buy]
      exact ⟨rfl, rfl, rfl⟩

/-- Witness for C10 at the sides "yEs", "no" and "MAYBE". -/
theorem position_update_frame_witness :
    ((emptyPosition.update_position "yEs" 2 (1/2) true).no_size = 0 ∧
     (emptyPosition.update_position "no" 2 (1/2) true).yes_size = 0) ∧
    emptyPosition.update_position "MAYBE" 2 (1/2) true = emptyPosition ∧
    emptyPosition.update_position "yEs" 2 (1/2) true =
      emptyPosition.update_position "Yes" 2 (1/2) true := by
  refine ⟨⟨?_, ?_⟩, ?_, ?_⟩
  · rw [(position_update_frame.1 emptyPosition "yEs" 2 (1/2) true (by decide)).1]
    rfl
  · rw [(position_update_frame.2.1 emptyPosition "no" 2 (1/2) true (by decide)).1]
    rfl
  · exact position_update_frame.2.2.1 emptyPosition "MAYBE" 2 (1/2) true
      (by decide) (by decide)
  · exact position_update_frame.2.2.2 emptyPosition "yEs" "Yes" 2 (1/2) true (by decide)

/-- Claim C5 (amended): with 11 YES units at net cost 1, target profit 0 and
NO best ask 0.48, the locked-profit strategy emits a BUY NO signal of
exactly 25/13 ≈ 1.92 units at 0.48 -- the binding (larger) lower bound of
the two linear profit constraints: after the purchase both settlement
outcomes project a profit ≥ 0 (the NO outcome exactly 0), and any smaller
purchase leaves the NO outcome below 0. -/
theorem locked_profit_hedges_no_side_minimally :
    lockedProfitGenerateSignal exampleBookC5 examplePositionC5 (some 0) =
      { signal_type := .BUY, no_size := some (25/13), no_price := some (12/25)
        reason := "hedge buy" } ∧
    Portfolio.profit ⟨11, 25/13, 1 + 25/13 * (12/25)⟩ .NO 1 = 0 ∧
    0 ≤ Portfolio.profit ⟨11, 25/13, 1 + 25/13 * (12/25)⟩ .YES 1 ∧
    (∀ x : ℚ, 0 ≤ Portfolio.profit ⟨11, x, 1 + x * (12/25)⟩ .NO 1 → 25/13 ≤ x) := by
  refine ⟨?_, by norm_num [Portfolio.profit], by norm_num [Portfolio.profit], ?_⟩
  · norm_num [lockedProfitGenerateSignal, PositionContext.has_position, examplePositionC5,
      exampleBookC5, Portfolio.from_position_context, Portfolio.profit,
      OrderBookContext.no_best_ask, bestAskPrice, min_buy_qty_for_target_profit, max_def]
  · intro x hx
    simp only [Portfolio.profit] at hx
    linarith

/-- Witness for C5: buying 2 NO units would also clear both constraints, and
the strategy's minimal quantity 25/13 is indeed ≤ 2. -/
theorem locked_profit_hedges_no_side_minimally_witness :
    (lockedProfitGenerateSignal exampleBookC5 examplePositionC5 (some 0)).signal_type =
      .BUY ∧ (25:ℚ)/13 ≤ 2 := by
  constructor
  · rw [locked_profit_hedges_no_side_minimally.1]
  · exact locked_profit_hedges_no_side_minimally.2.2.2 2 (by norm_num [Portfolio.profit])

/-- Counterexample for C5 as stated: the emitted BUY NO size is 25/13 ≈ 1.92,
not approximately 2.08 (= 52/25); the two differ by 51/325 > 0.05. -/
theorem locked_profit_size_is_not_two_point_o_eight :
    (lockedProfitGenerateSignal exampleBookC5 examplePositionC5 (some 0)).no_size =
      some (25/13) ∧
    ¬(|(25:ℚ)/13 - 52/25| ≤ 1/20) := by
  constructor
  · norm_num [lockedProfitGenerateSignal, PositionContext.has_position, examplePositionC5,
      exampleBookC5, Portfolio.from_position_context, Portfolio.profit,
      OrderBookContext.no_best_ask, bestAskPrice, min_buy_qty_for_target_profit, max_def]
  · have h : |(25:ℚ)/13 - 52/25| = 51/325 := by
      rw [abs_of_nonpos (by norm_num)]
      norm_num
    rw [h]
    norm_num

/-- Claim C6 (amended): when the executor executes a validated BUY or SELL
signal, each leg whose size is at least `min_order_amount` (legs below that
floor are skipped entirely) is, in simulation mode, recorded as SIMULATED
with the position updated immediately (a buy update for BUY, a sell update
for SELL); in real mode it is recorded as SUBMITTED with the position
updated when the venue call succeeds, and recorded as FAILED with no
position update when the venue call raises; a venue failure on the YES leg
does not prevent the NO leg from being attempted. -/
theorem executor_per_leg_record_and_position :
    ∀ (cfg : ExecutorConfig) (sig : TradingSignal) (pos : PositionContext)
      (ys yp ns np : ℚ) (yv nv : Except String Unit),
      sig.yes_size = some ys → sig.yes_price = some yp →
      sig.no_size = some ns → sig.no_price = some np →
      0 < cfg.min_order_amount →
      cfg.min_order_amount ≤ ys → cfg.min_order_amount ≤ ns →
      ((sig.signal_type = .BUY → cfg.execution_mode = .SIMULATION →
        executeSignal cfg sig pos yv nv =
          { success := true
            orders_placed :=
              [{ token_id := cfg.yes_token_id, side := "BUY", size := ys, price := yp
                 order_type := cfg.order_type, status := .SIMULATED },
               { token_id := cfg.no_token_id, side := "BUY", size := ns, price := np
                 order_type := cfg.order_type, status := .SIMULATED }]
            position := (pos.update_position "YES" ys yp true).update_position
              "NO" ns np true }) ∧
       (sig.signal_type = .BUY → cfg.execution_mode = .REAL →
        yv = .ok () → nv = .ok () →
        executeSignal cfg sig pos yv nv =
          { success := true
            orders_placed :=
              [{ token_id := cfg.yes_token_id, side := "BUY", size := ys, price := yp
                 order_type := cfg.order_type, status := .SUBMITTED },
               { token_id := cfg.no_token_id, side := "BUY", size := ns, price := np
                 order_type := cfg.order_type, status := .SUBMITTED }]
            position := (pos.update_position "YES" ys yp true).update_position
              "NO" ns np true }) ∧
       (∀ e, sig.signal_type = .BUY → cfg.execution_mode = .REAL →
        yv = .error e → nv = .ok () →
        executeSignal cfg sig pos yv nv =
          { success := false
            orders_placed :=
              [{ token_id := cfg.yes_token_id, side := "BUY", size := ys, price := yp
                 order_type := cfg.order_type, status := .FAILED, error := some e },
               { token_id := cfg.no_token_id, side := "BUY", size := ns, price := np
                 order_type := cfg.order_type, status := .SUBMITTED }]
            position := pos.update_position "NO" ns np true }) ∧
       (∀ e, sig.signal_type = .BUY → cfg.execution_mode = .REAL →
        yv = .ok () → nv = .error e →
        executeSignal cfg sig pos yv nv =
          { success := false
            orders_placed :=
              [{ token_id := cfg.yes_token_id, side := "BUY", size := ys, price := yp
                 order_type := cfg.order_type, status := .SUBMITTED },
               { token_id := cfg.no_token_id, side := "BUY", size := ns, price := np
                 order_type := cfg.order_type, status := .FAILED, error := some e }]
            position := pos.update_position "YES" ys yp true }) ∧
       (sig.signal_type = .SELL → cfg.execution_mode = .SIMULATION →
        executeSignal cfg sig pos yv nv =
          { success := true
            orders_placed :=
              [{ token_id := cfg.yes_token_id, side := "SELL", size := ys, price := yp
                 order_type := cfg.order_type, status := .SIMULATED },
               { token_id := cfg.no_token_id, side := "SELL", size := ns, price := np
                 order_type := cfg.order_type, status := .SIMULATED }]
            position := (pos.update_position "YES" ys yp false).update_position
              "NO" ns np false }) ∧
       (sig.signal_type = .SELL → cfg.execution_mode = .REAL →
        yv = .ok () → nv = .ok () →
        executeSignal cfg sig pos yv nv =
          { success := true
            orders_placed :=
              [{ token_id := cfg.yes_token_id, side := "SELL", size := ys, price := yp
                 order_type := cfg.order_type, status := .SUBMITTED },
               { token_id := cfg.no_token_id, side := "SELL", size := ns, price := np
                 order_type := cfg.order_type, status := .SUBMITTED }]
            position := (pos.update_position "YES" ys yp false).update_position
              "NO" ns np false }) ∧
       (∀ e, sig.signal_type = .SELL → cfg.execution_mode = .REAL →
        yv = .error e → nv = .ok () →
        executeSignal cfg sig pos yv nv =
          { success := false
            orders_placed :=
              [{ token_id := cfg.yes_token_id, side := "SELL", size := ys, price := yp
                 order_type := cfg.order_type, status := .FAILED, error := some e },
               { token_id := cfg.no_token_id, side := "SELL", size := ns, price := np
                 order_type := cfg.order_type, status := .SUBMITTED }]
            position := pos.update_position "NO" ns np false }) ∧
       (∀ e, sig.signal_type = .SELL → cfg.execution_mode = .REAL →
        yv = .ok () → nv = .error e →
        executeSignal cfg sig pos yv nv =
          { success := false
            orders_placed :=
              [{ token_id := cfg.yes_token_id, side := "SELL", size := ys, price := yp
                 order_type := cfg.order_type, status := .SUBMITTED },
               { token_id := cfg.no_token_id, side := "SELL", size := ns, price := np
                 order_type := cfg.order_type, status := .FAILED, error := some e }]
            position := pos.update_position "YES" ys yp false })) := by
  intro cfg sig pos ys yp ns np yv nv hys hyp hns hnp hmo hy hn
  have hyne : ys ≠ 0 := by
    intro h
    rw [h] at hy
    exact absurd (lt_of_lt_of_le hmo hy) (lt_irrefl 0)
  have hnne : ns ≠ 0 := by
    intro h
    rw [h] at hn
    exact absurd (lt_of_lt_of_le hmo hn) (lt_irrefl 0)
  refine ⟨?_, ?_, ?_, ?_, ?_, ?_, ?_, ?_⟩
  · intro htype hmode
    simp only [executeSignal, executeNoLeg, htype, hys, hyp, hns, hnp, hmode,
      if_pos (And.intro hyne hy), if_pos (And.intro hnne hn), if_pos rfl]
    simp [OrderStatus.FAILED]
  · intro htype hmode hyv hnv
    simp only [executeSignal, executeNoLeg, htype, hys, hyp, hns, hnp, hmode, hyv, hnv,
      if_pos (And.intro hyne hy), if_pos (And.intro hnne hn), if_pos rfl]
    simp [OrderStatus.FAILED]
  · intro e htype hmode hyv hnv
    simp only [executeSignal, executeNoLeg, htype, hys, hyp, hns, hnp, hmode, hyv, hnv,
      if_pos (And.intro hyne hy), if_pos (And.intro hnne hn), if_pos rfl]
    simp [OrderStatus.FAILED]
  · intro e htype hmode hyv hnv
    simp only [executeSignal, executeNoLeg, htype, hys, hyp, hns, hnp, hmode, hyv, hnv,
      if_pos (And.intro hyne hy), if_pos (And.intro hnne hn), if_pos rfl]
    simp [OrderStatus.FAILED]
  · intro htype hmode
    simp only [executeSignal, executeNoLeg, htype, hys, hyp, hns, hnp, hmode,
      if_pos (And.intro hyne hy), if_pos (And.intro hnne hn)]
    simp [OrderStatus.FAILED]
  · intro htype hmode hyv hnv
    simp only [executeSignal, executeNoLeg, htype, hys, hyp, hns, hnp, hmode, hyv, hnv,
      if_pos (And.intro hyne hy), if_pos (And.intro hnne hn)]
    simp [OrderStatus.FAILED]
  · intro e htype hmode hyv hnv
    simp only [executeSignal, executeNoLeg, htype, hys, hyp, hns, hnp, hmode, hyv, hnv,
      if_pos (And.intro hyne hy), if_pos (And.intro hnne hn)]
    simp [OrderStatus.FAILED]
  · intro e htype hmode hyv hnv
    simp only [executeSignal, executeNoLeg, htype, hys, hyp, hns, hnp, hmode, hyv, hnv,
      if_pos (And.intro hyne hy), if_pos (And.intro hnne hn)]
    simp [OrderStatus.FAILED]

/-- Witness for C6: simulation-mode execution of a two-leg BUY signal
records two SIMULATED legs and books both fills into the position, and
simulation-mode execution of a two-leg SELL signal against a held position
records two SIMULATED legs and reduces both holdings. -/
theorem executor_per_leg_record_and_position_witness :
    executeSignal {} twoLegSignal emptyPosition (.ok ()) (.ok ()) =
      { success := true
        orders_placed :=
          [{ token_id := "", side := "BUY", size := 5, price := 13/25
             order_type := "GTC", status := .SIMULATED },
           { token_id := "", side := "BUY", size := 5, price := 47/100
             order_type := "GTC", status := .SIMULATED }]
        position :=
          { yes_size := 5, no_size := 5, yes_avg_cost := 13/25, no_avg_cost := 47/100
            yes_total_cost := 13/5, no_total_cost := 47/20 } } ∧
    executeSignal {} twoLegSellSignal heldPosition (.ok ()) (.ok ()) =
      { success := true
        orders_placed :=
          [{ token_id := "", side := "SELL", size := 4, price := 3/5
             order_type := "GTC", status := .SIMULATED },
           { token_id := "", side := "SELL", size := 2, price := 2/5
             order_type := "GTC", status := .SIMULATED }]
        position :=
          { yes_size := 6, no_size := 8, yes_avg_cost := 1/2, no_avg_cost := 1/2
            yes_total_cost := 5, no_total_cost := 5 } } := by
  constructor
  · have h := (executor_per_leg_record_and_position {} twoLegSignal emptyPosition
      5 (13/25) 5 (47/100) (.ok ()) (.ok ()) rfl rfl rfl rfl
      (by norm_num) (by norm_num) (by norm_num)).1 rfl rfl
    rw [h]
    norm_num [update_position_yes_buy, update_position_no_buy, emptyPosition]
  · have h := (executor_per_leg_record_and_position {} twoLegSellSignal heldPosition
      4 (3/5) 2 (2/5) (.ok ()) (.ok ()) rfl rfl rfl rfl
      (by norm_num) (by norm_num) (by norm_num)).2.2.2.2.1 rfl rfl
    rw [h]
    norm_num [update_position_yes_sell, update_position_no_sell, heldPosition, max_def]

/-- Counterexample for C6 as stated: a validated BUY whose YES leg is
nonzero (0.5) but below min_order_amount (1) produces no execution record
at all and leaves the position untouched, though the claim promises a
SIMULATED record and a position update for every nonzero leg. -/
theorem executor_drops_nonzero_leg_below_minimum :
    executeSignal {} tinyLegSignal emptyPosition (.ok ()) (.ok ()) =
      { success := true, orders_placed := [], position := emptyPosition } ∧
    tinyLegSignal.yes_size = some (1/2) ∧ ((1:ℚ)/2 ≠ 0) := by
  refine ⟨?_, rfl, by norm_num⟩
  norm_num [executeSignal, executeNoLeg, tinyLegSignal, emptyPosition]

/-- Claim C7 (the control handler as written): `update_config` and
`refresh_positions` control messages fall into the handler's unknown
branch and trigger no operation, while `create` and `cancel` are
dispatched. -/
theorem control_handler_ignores_update_config :
    handleControlMessage (some "update_config") (some "t1") = .unknown ∧
    handleControlMessage (some "refresh_positions") (some "t1") = .unknown ∧
    handleControlMessage (some "create") (some "t1") = .createTask "t1" ∧
    handleControlMessage (some "cancel") (some "t1") = .cancelTask "t1" ∧
    handleControlMessage (some "shutdown") (some "t1") = .shutdown := by
  refine ⟨?_, ?_, ?_, ?_, ?_⟩ <;> decide

/-- Claim C8: in a run of consecutive reconnect failures started right
after a successful open, the k-th retry waits min(30, 2^(k-1)) seconds --
1, 2, 4, 8, 16, 30, 30, ... -- and a successful open resets the attempt
counter so the very next fault waits the 1-second base again. -/
theorem reconnect_backoff_doubles_and_caps :
    (∀ (s : WsConnState) (k : ℕ), 0 < k →
      kthRetryDelay (onOpen s) k = min 30 (2 ^ (k - 1))) ∧
    (∀ s : WsConnState, (onFailureStep (onOpen s)).2 = 1) ∧
    (List.range 7).map (fun i => kthRetryDelay (onOpen ⟨5⟩) (i + 1)) =
      [1, 2, 4, 8, 16, 30, 30] := by
  have hrun : ∀ n : ℕ, (runFailures ⟨0⟩ n).reconnect_attempts = n := by
    intro n
    induction n with
    | zero => rfl
    | succ m ih => simp [runFailures, onFailureStep, ih]
  refine ⟨?_, ?_, by decide⟩
  · intro s k _
    unfold kthRetryDelay onFailureStep onOpen
    simp [hrun, RECONNECT_BASE_DELAY, RECONNECT_MAX_DELAY]
  · intro s
    rfl

/-- Witness for C8: the 6th and 7th consecutive retries both wait the
30-second cap, and retry 5 waits 16 s. -/
theorem reconnect_backoff_doubles_and_caps_witness :
    kthRetryDelay (onOpen ⟨3⟩) 5 = 16 ∧
    kthRetryDelay (onOpen ⟨3⟩) 6 = 30 ∧
    kthRetryDelay (onOpen ⟨3⟩) 7 = 30 := by
  refine ⟨?_, ?_, ?_⟩
  · rw [reconnect_backoff_doubles_and_caps.1 ⟨3⟩ 5 (by norm_num)]
    decide
  · rw [reconnect_backoff_doubles_and_caps.1 ⟨3⟩ 6 (by norm_num)]
    decide
  · rw [reconnect_backoff_doubles_and_caps.1 ⟨3⟩ 7 (by norm_num)]
    decide

/-- Claim C9 (amended): the book stream discards a message before it
reaches the queue iff the message is a dict whose event_type lower-cases
to a non-empty string other than "book" or "price_change"; every other
message -- including dicts with no event_type (such as raw-wrapped
frames) and non-dict values -- is enqueued. -/
theorem book_stream_filter_discards_exactly_unknown_typed_dicts :
    ∀ m : StreamMessage, handleMessageEnqueues m = false ↔
      (∃ et, m = .obj (some et) ∧ strLower et ≠ "" ∧
        strLower et ≠ "book" ∧ strLower et ≠ "price_change") := by
  intro m
  match m with
  | .nonObj => simp [handleMessageEnqueues]
  | .obj none =>
    constructor
    · intro h
      simp [handleMessageEnqueues, strLower] at h
    · rintro ⟨et, het, -⟩
      exact absurd het (by simp)
  | .obj (some e) =>
    constructor
    · intro h
      refine ⟨e, rfl, ?_, ?_, ?_⟩ <;>
        · intro hc
          simp [handleMessageEnqueues, hc] at h
    · rintro ⟨et, het, h1, h2, h3⟩
      have : et = e := by
        injection het with h
        injection h with h
        exact h.symm
      subst this
      simp [handleMessageEnqueues, h1, h2, h3]

/-- Counterexample for C9 as stated: a dict carrying no event_type (the raw
payload wrapper the transport produces for undecodable frames) is neither
of the two understood kinds yet it is enqueued, as is any non-dict
message. -/
theorem raw_wrapper_reaches_queue :
    handleMessageEnqueues (.obj none) = true ∧
    specUnderstoodKind (.obj none) = false ∧
    handleMessageEnqueues .nonObj = true ∧
    specUnderstoodKind .nonObj = false := by
  refine ⟨?_, ?_, ?_, ?_⟩ <;> decide
